import Mathlib

/-! Shallow embedding of the window-geometry core of `src/main.py`
(the 1080p-streaming-window utility): the geometry probe helpers, the
resize-controller state machine of `_resize_window`, the window
enumerator, and the batch aggregation of `SelectorWindow._do_resize`.

Win32 calls are modelled by explicit measurement data: an `Option`
value is `none` exactly when the corresponding platform call raises,
matching the `try`/`except` structure of the source. -/

namespace Resizer

/-- `TARGET_W = 1920` (main.py line 64). -/
def TARGET_W : Int := 1920

/-- `TARGET_H = 1080` (main.py line 65). -/
def TARGET_H : Int := 1080

/-- `win32con.SW_RESTORE`. -/
def SW_RESTORE : Nat := 9

/-- `win32con.SWP_NOSIZE`. -/
def SWP_NOSIZE : Nat := 1

/-- `win32con.SWP_NOMOVE`. -/
def SWP_NOMOVE : Nat := 2

/-- `win32con.SWP_NOZORDER`. -/
def SWP_NOZORDER : Nat := 4

/-- `win32con.SWP_NOACTIVATE`. -/
def SWP_NOACTIVATE : Nat := 16

/-- `win32con.SWP_FRAMECHANGED`. -/
def SWP_FRAMECHANGED : Nat := 32

/-- `win32con.WS_EX_TOOLWINDOW`. -/
def WS_EX_TOOLWINDOW : Nat := 128

/-- `win32con.WS_EX_APPWINDOW`. -/
def WS_EX_APPWINDOW : Nat := 262144

/-- One instant of raw Win32 measurement data for a window handle.
Each field models one platform query of `src/main.py`; the value is
`none` when that call raises (`except Exception` paths).
`winRect` is `win32gui.GetWindowRect` as `(left, top, right, bottom)`,
`dwmRect` is `DwmGetWindowAttribute(EXTENDED_FRAME_BOUNDS)` as a RECT,
`clientRect` is `win32gui.GetClientRect`, and `toScreen` is
`win32gui.ClientToScreen` on a client-coordinate point. -/
structure Measurement where
  winRect : Option (Int × Int × Int × Int)
  dwmRect : Option (Int × Int × Int × Int)
  clientRect : Option (Int × Int × Int × Int)
  toScreen : Int × Int → Option (Int × Int)

/-- `_get_window_rect` (main.py lines 217-228): outer rect as
`(left, top, width, height)`, degenerating to zeros on failure. -/
def get_window_rect (m : Measurement) : Int × Int × Int × Int :=
  match m.winRect with
  | some (l, t, r, b) => (l, t, r - l, b - t)
  | none => (0, 0, 0, 0)

/-- `_get_visible_rect` (main.py lines 231-244): DWM visible rect as
`(left, top, width, height)`, falling back to `_get_window_rect` when
the DWM query fails. -/
def get_visible_rect (m : Measurement) : Int × Int × Int × Int :=
  match m.dwmRect with
  | some (l, t, r, b) => (l, t, r - l, b - t)
  | none => get_window_rect m

/-- `_get_shadow_margins` (main.py lines 247-257): per-edge difference
between the DWM visible rect and the outer rect, `(0,0,0,0)` when
either query fails. -/
def get_shadow_margins (m : Measurement) : Int × Int × Int × Int :=
  match m.winRect, m.dwmRect with
  | some (ol, ot, orr, obb), some (l, t, r, b) =>
      (l - ol, t - ot, orr - r, obb - b)
  | _, _ => (0, 0, 0, 0)

/-- `_get_nonclient_margins` (main.py lines 260-285): client corners
mapped to screen coordinates and diffed against the visible rect on
all four edges, clamped to `max 0`; `(0,0,0,0)` on any failure. -/
def get_nonclient_margins (m : Measurement) : Int × Int × Int × Int :=
  match get_visible_rect m, m.clientRect with
  | (vx, vy, vw, vh), some (cl, ct, cr, cb) =>
      match m.toScreen (cl, ct), m.toScreen (cr, cb) with
      | some (cx0, cy0), some (cx1, cy1) =>
          (max 0 (cx0 - vx), max 0 (cy0 - vy),
           max 0 (vx + vw - cx1), max 0 (vy + vh - cy1))
      | _, _ => (0, 0, 0, 0)
  | _, none => (0, 0, 0, 0)

/-- `_get_client_size` (main.py lines 314-318): client dimensions
inferred by subtracting the non-client margins from the visible rect. -/
def get_client_size (m : Measurement) : Int × Int :=
  match get_nonclient_margins m, get_visible_rect m with
  | (ncl, nct, ncr, ncb), (_, _, vw, vh) =>
      (vw - ncl - ncr, vh - nct - ncb)

/-- `_client_wh` (main.py lines 321-324): client dimensions straight
from `GetClientRect`, with no margin inference; the call may raise
(`none`), which the caller's own handler must catch. -/
def client_wh (m : Measurement) : Option (Int × Int) :=
  match m.clientRect with
  | some (cl, ct, cr, cb) => some (cr - cl, cb - ct)
  | none => none

/-- `_SHELL_CLASSES` (main.py lines 92-99). -/
def SHELL_CLASSES : List String :=
  ["Progman", "WorkerW", "Shell_TrayWnd", "Shell_SecondaryTrayWnd",
   "DV2ControlHost", "Windows.UI.Core.CoreWindow"]

/-- The per-window OS data consulted by `_is_real_app_window`:
visibility, title, owning pid, class name, extended style, and the
cloak attribute (`none` models `DwmGetWindowAttribute` raising, in
which case the `ctypes.c_int(0)` initial value survives). -/
structure WinInfo where
  hwnd : Nat
  visible : Bool
  title : String
  pid : Nat
  className : String
  exstyle : Nat
  cloaked : Option Int

/-- `not title.strip()` of main.py line 110: the title strips to the
empty string exactly when every character is whitespace. -/
def title_blank (s : String) : Bool :=
  s.data.all (fun c => c.isWhitespace)

/-- `_is_real_app_window` (main.py lines 104-141). -/
def is_real_app_window (w : WinInfo) (own_pid : Nat) : Bool :=
  if w.visible = false then false
  else if title_blank w.title then false
  else if w.pid = own_pid then false
  else if w.className ∈ SHELL_CLASSES then false
  else if w.exstyle &&& WS_EX_TOOLWINDOW ≠ 0 ∧ w.exstyle &&& WS_EX_APPWINDOW = 0 then false
  else if (w.cloaked.getD 0) ≠ 0 then false
  else true

/-- Ordering used by `_enum_windows`: compare lower-cased titles
(`key=lambda x: x[1].lower()`, main.py line 154). -/
def title_le (a b : Nat × String) : Prop :=
  a.2.toLower ≤ b.2.toLower

instance : DecidableRel title_le := fun a b =>
  inferInstanceAs (Decidable (a.2.toLower ≤ b.2.toLower))

instance : IsTotal (Nat × String) title_le :=
  ⟨fun a b => le_total a.2.toLower b.2.toLower⟩

instance : IsTrans (Nat × String) title_le :=
  ⟨fun _ _ _ hab hbc => le_trans hab hbc⟩

/-- `_enum_windows` (main.py lines 144-154): keep the windows passing
`_is_real_app_window`, pair each with its title, and sort
case-insensitively by title. -/
def enum_windows (ws : List WinInfo) (own_pid : Nat) : List (Nat × String) :=
  List.insertionSort title_le
    ((ws.filter (fun w => is_real_app_window w own_pid)).map
      (fun w => (w.hwnd, w.title)))

/-- The live window geometry that `_resize_window` reads between
platform calls: `_get_window_rect`'s `(left, top, width, height)` and
`_client_wh`'s `(width, height)`. -/
structure Geom where
  ox : Int
  oy : Int
  ow : Int
  oh : Int
  cw : Int
  ch : Int
deriving DecidableEq

/-- Arguments of one `win32gui.SetWindowPos` call. -/
structure SWP where
  x : Int
  y : Int
  w : Int
  h : Int
  flags : Nat
deriving DecidableEq

/-- The geometry-affecting platform calls issued by `_resize_window`,
in order, for the trace of one invocation. -/
inductive PlatCall where
  | showWindow (cmd : Nat)
  | sleepMs (ms : Nat)
  | setWindowPos (c : SWP)
deriving DecidableEq

/-- The OS-plus-target-application environment one `_resize_window`
invocation runs against: whether the window started maximized, the
geometry and shadow margins measured after the restore settles
(main.py lines 357-361), the hosting monitor's top-left, and the
combined OS/app response `step` to a `SetWindowPos` call (including
any asynchronous size handler that runs during the settle sleep). -/
structure WinSys where
  isMax : Bool
  g0 : Geom
  shadowL : Int
  shadowT : Int
  shadowR : Int
  shadowB : Int
  monX : Int
  monY : Int
  step : Geom → SWP → Geom

/-- The flag set always passed to `SetWindowPos` (main.py line 383):
`SWP_NOZORDER | SWP_NOACTIVATE | SWP_FRAMECHANGED`. -/
def BASE_FLAGS : Nat := SWP_NOZORDER ||| SWP_NOACTIVATE ||| SWP_FRAMECHANGED

/-- The first `SetWindowPos` request of `_resize_window`
(main.py lines 379-395): outer size is current outer plus the
target-minus-current client delta; position is the monitor top-left
minus the left/top shadow margins when `move_to_origin`, else `(0,0)`
with `SWP_NOMOVE` added to the flags. -/
def first_call (sys : WinSys) (move_to_origin : Bool) : SWP :=
  { x := if move_to_origin then sys.monX - sys.shadowL else 0
    y := if move_to_origin then sys.monY - sys.shadowT else 0
    w := sys.g0.ow + (TARGET_W - sys.g0.cw)
    h := sys.g0.oh + (TARGET_H - sys.g0.ch)
    flags := if move_to_origin then BASE_FLAGS else BASE_FLAGS ||| SWP_NOMOVE }

/-- The retry `SetWindowPos` request (main.py lines 405-409): the same
position and flags as the first call, with a fresh delta computed from
the just-measured outer and client sizes. -/
def retry_call (sys : WinSys) (move_to_origin : Bool) : SWP :=
  let c1 := first_call sys move_to_origin
  let g1 := sys.step sys.g0 c1
  { x := c1.x
    y := c1.y
    w := g1.ow + (TARGET_W - g1.cw)
    h := g1.oh + (TARGET_H - g1.ch)
    flags := c1.flags }

/-- The success message of `_resize_window` (main.py line 418). -/
def success_msg : String :=
  "Client area " ++ toString TARGET_W ++ "×" ++ toString TARGET_H ++ " ✓"

/-- The soft-failure message of `_resize_window` (main.py line 420),
carrying the achieved client size. -/
def attempted_msg (w h : Int) : String :=
  "Attempted - client " ++ toString w ++ "×" ++ toString h ++
    " (window may have constraints)"

/-- `_resize_window` (main.py lines 327-423) under an environment in
which no platform call raises: returns the status string together with
the trace of geometry-affecting platform calls. `ShowWindow(SW_RESTORE)`
is issued unconditionally (line 350); the 0.10 s settle sleep only when
the window was maximized (lines 351-354); then one apply-and-settle
pass, and exactly one retry pass when the measured client size missed
the target (lines 401-411). -/
def resize_window (sys : WinSys) (move_to_origin : Bool) : String × List PlatCall :=
  let pre : List PlatCall :=
    PlatCall.showWindow SW_RESTORE ::
      (if sys.isMax then [PlatCall.sleepMs 100] else [])
  let c1 := first_call sys move_to_origin
  let g1 := sys.step sys.g0 c1
  if g1.cw = TARGET_W ∧ g1.ch = TARGET_H then
    (success_msg, pre ++ [PlatCall.setWindowPos c1, PlatCall.sleepMs 150])
  else
    let c2 := retry_call sys move_to_origin
    let g2 := sys.step g1 c2
    ((if g2.cw = TARGET_W ∧ g2.ch = TARGET_H then success_msg
      else attempted_msg g2.cw g2.ch),
     pre ++ [PlatCall.setWindowPos c1, PlatCall.sleepMs 150,
             PlatCall.setWindowPos c2, PlatCall.sleepMs 150])

/-- The geometry the window ends in after `_resize_window`'s last
settle sleep (the state read by the final `_client_wh` at line 399 or
411). -/
def final_geom (sys : WinSys) (move_to_origin : Bool) : Geom :=
  let c1 := first_call sys move_to_origin
  let g1 := sys.step sys.g0 c1
  if g1.cw = TARGET_W ∧ g1.ch = TARGET_H then g1
  else sys.step g1 (retry_call sys move_to_origin)

/-- The client size `_resize_window` last measures and reports on. -/
def final_client (sys : WinSys) (move_to_origin : Bool) : Int × Int :=
  ((final_geom sys move_to_origin).cw, (final_geom sys move_to_origin).ch)

/-- The `SetWindowPos` calls of a platform-call trace, in order. -/
def swpCalls : List PlatCall → List SWP
  | [] => []
  | PlatCall.setWindowPos c :: rest => c :: swpCalls rest
  | _ :: rest => swpCalls rest

/-- One handle's run inside `SelectorWindow._do_resize`: either the
environment of a completed `_resize_window` pass, or a platform call
raising `msg` somewhere inside it (caught at main.py lines 421-423). -/
inductive HandleRun where
  | ok (sys : WinSys)
  | raises (msg : String)

/-- The per-handle result string produced inside the batch loop of
`_do_resize` (main.py line 758): the `_resize_window` return value,
with any exception converted to the `Error:` form (lines 421-423). -/
def run_handle (move : Bool) : HandleRun → String
  | HandleRun.ok sys => (resize_window sys move).1
  | HandleRun.raises msg => "Error: " ++ msg

/-- The aggregate status string of `_do_resize` (main.py lines
759-764): the single result verbatim for one handle, else the count of
results containing `✓` over the total. -/
def aggregate_msg (results : List String) : String :=
  if results.length = 1 then results.headD ""
  else
    let ok := results.countP (fun r => decide ('✓' ∈ r.data))
    if ok = results.length then
      toString ok ++ "/" ++ toString results.length ++ " windows resized ✓"
    else
      toString ok ++ "/" ++ toString results.length ++ " succeeded"

/-- `SelectorWindow._do_resize` (main.py lines 752-767) minus the UI:
`none` models the no-selection early return; otherwise each selected
handle is processed sequentially in order and the aggregate status is
computed from the per-handle result strings. -/
def do_resize (move : Bool) (hs : List HandleRun) : Option (List String × String) :=
  if hs.isEmpty then none
  else
    let results := hs.map (run_handle move)
    some (results, aggregate_msg results)

/-- A `step` response obeying the documented `SetWindowPos` contract:
the outer size becomes exactly the requested size, the position moves
to the requested point unless `SWP_NOMOVE` is set, and the client size
changes by exactly the outer-size delta (a window with no internal
size constraints). -/
def obedient_step (g : Geom) (c : SWP) : Geom :=
  { ox := if c.flags &&& SWP_NOMOVE ≠ 0 then g.ox else c.x
    oy := if c.flags &&& SWP_NOMOVE ≠ 0 then g.oy else c.y
    ow := c.w
    oh := c.h
    cw := g.cw + (c.w - g.ow)
    ch := g.ch + (c.h - g.oh) }

/-- A `step` response of an application that snaps its client width to
at most 1916 pixels (absorbing 16 px of horizontal frame) while
honouring heights exactly: the retry-scenario app of the spec. -/
def snap_step (g : Geom) (c : SWP) : Geom :=
  { ox := if c.flags &&& SWP_NOMOVE ≠ 0 then g.ox else c.x
    oy := if c.flags &&& SWP_NOMOVE ≠ 0 then g.oy else c.y
    ow := c.w
    oh := c.h
    cw := min (c.w - 16) 1916
    ch := c.h - 39 }

/-- Measurement with a transiently negative outer-vs-visible
difference: the DWM rect extends 5 px left of the outer rect. -/
def m_shadow_neg : Measurement :=
  { winRect := some (0, 0, 100, 100)
    dwmRect := some (-5, 0, 100, 100)
    clientRect := none
    toScreen := fun _ => none }

/-- Measurement whose client rect maps partly outside the visible rect,
so the clamped margin inference of `_get_client_size` disagrees with
the direct `GetClientRect` reading. -/
def m_infer : Measurement :=
  { winRect := some (0, 0, 120, 120)
    dwmRect := some (10, 10, 110, 110)
    clientRect := some (0, 0, 50, 50)
    toScreen := fun p =>
      if p = (0, 0) then some (5, 15)
      else if p = (50, 50) then some (55, 65)
      else none }

/-- The spec's first-pass scenario: client 1280×720 inside a 1296×759
outer rect (16 px/39 px of frame), an exactly-obedient application. -/
def scenario_sys : WinSys :=
  { isMax := false
    g0 := { ox := 0, oy := 0, ow := 1296, oh := 759, cw := 1280, ch := 720 }
    shadowL := 0, shadowT := 0, shadowR := 0, shadowB := 0
    monX := 0, monY := 0
    step := obedient_step }

/-- The spec's snapping scenario: same baseline, but the application
snaps client width to 1916. -/
def snap_sys : WinSys :=
  { isMax := false
    g0 := { ox := 0, oy := 0, ow := 1296, oh := 759, cw := 1280, ch := 720 }
    shadowL := 0, shadowT := 0, shadowR := 0, shadowB := 0
    monX := 0, monY := 0
    step := snap_step }

/-- The spec's repositioning scenario: shadow margins `(8,8,8,8)` on a
monitor whose top-left is `(1920, 0)`. -/
def origin_sys : WinSys :=
  { isMax := false
    g0 := { ox := 100, oy := 100, ow := 1296, oh := 759, cw := 1280, ch := 720 }
    shadowL := 8, shadowT := 8, shadowR := 8, shadowB := 8
    monX := 1920, monY := 0
    step := obedient_step }

/-- A non-maximized, obedient window whose client area is already
1920×1080. -/
def idem_sys : WinSys :=
  { isMax := false
    g0 := { ox := 50, oy := 60, ow := 1936, oh := 1119, cw := 1920, ch := 1080 }
    shadowL := 0, shadowT := 0, shadowR := 0, shadowB := 0
    monX := 0, monY := 0
    step := obedient_step }

/-- A visible shell window (`Progman`), filtered out by class. -/
def shell_win : WinInfo :=
  { hwnd := 1, visible := true, title := "Program Manager", pid := 4242
    className := "Progman", exstyle := 0, cloaked := some 0 }

/-- An ordinary application window whose cloak query fails. -/
def app_win : WinInfo :=
  { hwnd := 2, visible := true, title := "Notepad", pid := 10
    className := "Notepad", exstyle := 0, cloaked := none }

/-- A handle's run counts as succeeded when its `_resize_window` pass
completed and the final measured client size equals the target; a run
that raised never succeeds. -/
def handle_succeeded (move : Bool) : HandleRun → Prop
  | HandleRun.ok sys => final_client sys move = (TARGET_W, TARGET_H)
  | HandleRun.raises _ => False

lemma data_append (s t : String) : (s ++ t).data = s.data ++ t.data := rfl

lemma digitChar_ne_tick (n : Nat) : Nat.digitChar n ≠ '✓' := by
  rcases Nat.lt_or_ge n 16 with h | h
  · interval_cases n <;> decide
  · have hstar : Nat.digitChar n = '*' := by
      unfold Nat.digitChar
      repeat rw [if_neg (by omega)]
    rw [hstar]
    decide

lemma toDigitsCore_no_tick (b fuel : Nat) :
    ∀ (n : Nat) (ds : List Char), '✓' ∉ ds → '✓' ∉ Nat.toDigitsCore b fuel n ds := by
  induction fuel with
  | zero => intro n ds h; simpa [Nat.toDigitsCore] using h
  | succ f ih =>
    intro n ds h
    simp only [Nat.toDigitsCore]
    split
    · intro hmem
      rcases List.mem_cons.mp hmem with heq | hm
      · exact digitChar_ne_tick _ heq.symm
      · exact h hm
    · refine ih _ _ ?_
      intro hmem
      rcases List.mem_cons.mp hmem with heq | hm
      · exact digitChar_ne_tick _ heq.symm
      · exact h hm

lemma natRepr_no_tick (n : Nat) : '✓' ∉ (Nat.repr n).data :=
  toDigitsCore_no_tick 10 (n + 1) n [] (by simp)

lemma intToString_no_tick (i : Int) : '✓' ∉ (toString i).data := by
  cases i with
  | ofNat m => exact natRepr_no_tick m
  | negSucc m =>
    show '✓' ∉ ("-" ++ toString (m + 1)).data
    intro hmem
    rw [data_append] at hmem
    rcases List.mem_append.mp hmem with h | h
    · exact absurd h (by decide)
    · exact natRepr_no_tick _ h

lemma attempted_no_tick (a b : Int) : '✓' ∉ (attempted_msg a b).data := by
  intro hmem
  unfold attempted_msg at hmem
  simp only [data_append, List.mem_append] at hmem
  rcases hmem with ((((h | h) | h) | h) | h)
  · exact absurd h (by decide)
  · exact intToString_no_tick a h
  · exact absurd h (by decide)
  · exact intToString_no_tick b h
  · exact absurd h (by decide)

lemma tick_in_success : '✓' ∈ success_msg.data := by decide

lemma trace_resize (sys : WinSys) (mv : Bool) :
    (resize_window sys mv).2 =
      PlatCall.showWindow SW_RESTORE ::
        ((if sys.isMax then [PlatCall.sleepMs 100] else []) ++
          (if (sys.step sys.g0 (first_call sys mv)).cw = TARGET_W ∧
              (sys.step sys.g0 (first_call sys mv)).ch = TARGET_H then
            [PlatCall.setWindowPos (first_call sys mv), PlatCall.sleepMs 150]
          else
            [PlatCall.setWindowPos (first_call sys mv), PlatCall.sleepMs 150,
             PlatCall.setWindowPos (retry_call sys mv), PlatCall.sleepMs 150])) := by
  unfold resize_window
  split <;> split <;> simp [*]

lemma swpCalls_append (l1 l2 : List PlatCall) :
    swpCalls (l1 ++ l2) = swpCalls l1 ++ swpCalls l2 := by
  induction l1 with
  | nil => rfl
  | cons a l ih => cases a <;> simp [swpCalls, ih]

lemma swpCalls_resize (sys : WinSys) (mv : Bool) :
    swpCalls (resize_window sys mv).2 =
      (if (sys.step sys.g0 (first_call sys mv)).cw = TARGET_W ∧
          (sys.step sys.g0 (first_call sys mv)).ch = TARGET_H then
        [first_call sys mv]
      else [first_call sys mv, retry_call sys mv]) := by
  rw [trace_resize]
  by_cases hc : (sys.step sys.g0 (first_call sys mv)).cw = TARGET_W ∧
      (sys.step sys.g0 (first_call sys mv)).ch = TARGET_H <;>
    cases hM : sys.isMax <;>
      simp [hc, hM, swpCalls, swpCalls_append]

lemma result_resize (sys : WinSys) (mv : Bool) :
    (resize_window sys mv).1 =
      (if final_client sys mv = (TARGET_W, TARGET_H) then success_msg
       else attempted_msg (final_client sys mv).1 (final_client sys mv).2) := by
  unfold resize_window final_client final_geom
  by_cases hc : (sys.step sys.g0 (first_call sys mv)).cw = TARGET_W ∧
      (sys.step sys.g0 (first_call sys mv)).ch = TARGET_H
  · simp [hc, Prod.mk.injEq]
  · by_cases hc2 :
        (sys.step (sys.step sys.g0 (first_call sys mv)) (retry_call sys mv)).cw = TARGET_W ∧
        (sys.step (sys.step sys.g0 (first_call sys mv)) (retry_call sys mv)).ch = TARGET_H
    · simp [hc, hc2, Prod.mk.injEq]
    · simp [hc, hc2, Prod.mk.injEq]

lemma final_geom_eq (sys : WinSys) (mv : Bool) :
    final_geom sys mv =
      (if (sys.step sys.g0 (first_call sys mv)).cw = TARGET_W ∧
          (sys.step sys.g0 (first_call sys mv)).ch = TARGET_H then
        sys.step sys.g0 (first_call sys mv)
      else sys.step (sys.step sys.g0 (first_call sys mv)) (retry_call sys mv)) := rfl

lemma tick_iff_target (sys : WinSys) (mv : Bool) :
    '✓' ∈ ((resize_window sys mv).1).data ↔
      final_client sys mv = (TARGET_W, TARGET_H) := by
  rw [result_resize]
  split
  · simp [*, tick_in_success]
  · simp only [*, iff_false]
    exact attempted_no_tick _ _

/-- C1: for every resize pass the requested outer size is the current
outer size plus the difference between target and current client size
(`adj_w = lw + (TARGET_W - cw)` at main.py line 379 for the first
pass, `adj_w2 = lw2 + (TARGET_W - fw)` at line 406 for the retry
pass); in particular a window with client 1280×720 and outer 1296×759
gets a first-pass request of 1936×1119, and when the app honours it
exactly the outcome is success with no retry. -/
theorem C1_delta_formula (sys : WinSys) (mv : Bool) :
    (∃ c1 : SWP,
      c1.w = sys.g0.ow + (TARGET_W - sys.g0.cw) ∧
      c1.h = sys.g0.oh + (TARGET_H - sys.g0.ch) ∧
      (swpCalls (resize_window sys mv).2 = [c1] ∨
        ∃ c2 : SWP,
          c2.w = (sys.step sys.g0 c1).ow + (TARGET_W - (sys.step sys.g0 c1).cw) ∧
          c2.h = (sys.step sys.g0 c1).oh + (TARGET_H - (sys.step sys.g0 c1).ch) ∧
          swpCalls (resize_window sys mv).2 = [c1, c2])) ∧
    swpCalls (resize_window scenario_sys false).2 =
      [{ x := 0, y := 0, w := 1936, h := 1119, flags := 54 }] ∧
    (resize_window scenario_sys false).1 = success_msg := by
  refine ⟨⟨first_call sys mv, rfl, rfl, ?_⟩, by decide, by decide⟩
  rw [swpCalls_resize]
  by_cases hc : (sys.step sys.g0 (first_call sys mv)).cw = TARGET_W ∧
      (sys.step sys.g0 (first_call sys mv)).ch = TARGET_H
  · left; simp [hc]
  · right; exact ⟨retry_call sys mv, rfl, rfl, by simp [hc]⟩

/-- C2 fails as stated: `_get_shadow_margins` (main.py line 255)
returns the raw outer-versus-visible differences with no `max 0`
clamp, so a transiently negative difference propagates: with an outer
rect `(0,0,100,100)` and a DWM rect starting 5 px further left, the
left shadow margin comes out as `-5 < 0`. -/
theorem C2_counterexample :
    (get_shadow_margins m_shadow_neg).1 = -5 ∧
    (get_shadow_margins m_shadow_neg).1 < 0 := by
  decide

/-- C2 (amended): the four `_get_nonclient_margins` components are
always ≥ 0 (each is clamped with `max 0`), but `_get_shadow_margins`
returns the raw per-edge differences between the DWM rect and the
outer rect, unclamped, whenever both queries succeed. -/
theorem C2_margins (m : Measurement) :
    (0 ≤ (get_nonclient_margins m).1 ∧ 0 ≤ (get_nonclient_margins m).2.1 ∧
     0 ≤ (get_nonclient_margins m).2.2.1 ∧ 0 ≤ (get_nonclient_margins m).2.2.2) ∧
    (∀ ol ot orr obb l t r b,
      m.winRect = some (ol, ot, orr, obb) → m.dwmRect = some (l, t, r, b) →
      get_shadow_margins m = (l - ol, t - ot, orr - r, obb - b)) := by
  constructor
  · rcases hvis : get_visible_rect m with ⟨vx, vy, vw, vh⟩
    rcases hcr : m.clientRect with _ | ⟨cl, ct, cr, cb⟩
    · simp [get_nonclient_margins, hvis, hcr]
    · rcases hp : m.toScreen (cl, ct) with _ | ⟨cx0, cy0⟩ <;>
        rcases hq : m.toScreen (cr, cb) with _ | ⟨cx1, cy1⟩ <;>
          simp [get_nonclient_margins, hvis, hcr, hp, hq]
  · intro ol ot orr obb l t r b hw hd
    simp [get_shadow_margins, hw, hd]

/-- Witness for the amended C2: at the concrete measurement
`m_shadow_neg` the non-client margins are clamped non-negative while
the shadow margins are the raw differences `(-5, 0, 0, 0)`. -/
theorem C2_margins_witness :
    0 ≤ (get_nonclient_margins m_shadow_neg).1 ∧
    get_shadow_margins m_shadow_neg = (-5 - 0, 0 - 0, 100 - 100, 100 - 100) :=
  ⟨(C2_margins m_shadow_neg).1.1,
   (C2_margins m_shadow_neg).2 0 0 100 100 (-5) 0 100 100 rfl rfl⟩

/-- C3 fails as stated: the restore step is not conditional on the
maximized state — `ShowWindow(SW_RESTORE)` (main.py line 350) is
issued for every window, as this non-maximized run shows. (Only the
0.10 s settling pause is conditional on `is_max`.) -/
theorem C3_counterexample :
    scenario_sys.isMax = false ∧
    PlatCall.showWindow SW_RESTORE ∈ (resize_window scenario_sys false).2 := by
  constructor
  · rfl
  · decide

/-- C3 (amended): a restore command is issued unconditionally, first,
for every window; the brief settling pause before any geometry is
measured is issued exactly when the window was maximized. -/
theorem C3_restore_unconditional (sys : WinSys) (mv : Bool) :
    ∃ rest : List PlatCall,
      (resize_window sys mv).2 =
        PlatCall.showWindow SW_RESTORE ::
          ((if sys.isMax then [PlatCall.sleepMs 100] else []) ++ rest) ∧
      PlatCall.sleepMs 100 ∉ rest ∧
      (PlatCall.sleepMs 100 ∈ (resize_window sys mv).2 ↔ sys.isMax = true) := by
  rw [trace_resize]
  refine ⟨_, rfl, ?_, ?_⟩
  · split <;> simp
  · cases hM : sys.isMax <;> simp_all <;> split <;> simp

/-- Witness for the amended C3 at a concrete non-maximized window:
no 0.10 s settling pause appears anywhere in its trace. -/
theorem C3_restore_unconditional_witness :
    PlatCall.sleepMs 100 ∉ (resize_window scenario_sys false).2 ∧
    (PlatCall.sleepMs 100 ∈ (resize_window scenario_sys false).2 ↔
      scenario_sys.isMax = true) := by
  obtain ⟨rest, h1, h2, h3⟩ := C3_restore_unconditional scenario_sys false
  refine ⟨?_, h3⟩
  intro hmem
  exact absurd (h3.mp hmem) (by decide)

/-- C4 fails as stated: the per-selection size shown by the window
list provider comes from `_get_client_size` (main.py line 716), which
infers the client size by subtracting the clamped non-client margins
from the visible rect; at `m_infer` it reports 45×50 while the direct
`GetClientRect` query reads 50×50. -/
theorem C4_counterexample :
    get_client_size m_infer = (45, 50) ∧
    client_wh m_infer = some (50, 50) ∧
    get_client_size m_infer ≠ (50, 50) := by
  decide

/-- C4 (amended): `_client_wh` — the reading used by the resize
controller — is the direct `GetClientRect` difference, while
`_get_client_size` — the reading shown per selection — is inferred by
subtracting the non-client margins from the visible rect and need not
agree with the direct query. -/
theorem C4_client_size (m : Measurement) :
    (∀ cl ct cr cb, m.clientRect = some (cl, ct, cr, cb) →
      client_wh m = some (cr - cl, cb - ct)) ∧
    (∀ ncl nct ncr ncb vx vy vw vh,
      get_nonclient_margins m = (ncl, nct, ncr, ncb) →
      get_visible_rect m = (vx, vy, vw, vh) →
      get_client_size m = (vw - ncl - ncr, vh - nct - ncb)) := by
  constructor
  · intro cl ct cr cb h
    simp [client_wh, h]
  · intro ncl nct ncr ncb vx vy vw vh h1 h2
    simp [get_client_size, h1, h2]

/-- Witness for the amended C4 at the concrete measurement `m_infer`:
direct query 50×50, margin-inferred display value 45×50. -/
theorem C4_client_size_witness :
    client_wh m_infer = some (50 - 0, 50 - 0) ∧
    get_client_size m_infer = (100 - 0 - 55, 100 - 5 - 45) :=
  ⟨(C4_client_size m_infer).1 0 0 50 50 rfl,
   (C4_client_size m_infer).2 0 5 55 45 10 10 100 100 (by decide) (by decide)⟩

/-- C5: when the first apply-and-settle misses the target, the
controller issues exactly one retry whose delta is recomputed with the
same formula from the freshly measured outer and client sizes, at the
same position and flags as the first pass; there is never a third
`SetWindowPos`, and a second miss yields the `Attempted` outcome
carrying the achieved client size. -/
theorem C5_retry_once (sys : WinSys) (mv : Bool) (c1 : SWP)
    (hc1 : c1 = first_call sys mv)
    (hmiss : ¬((sys.step sys.g0 c1).cw = TARGET_W ∧
               (sys.step sys.g0 c1).ch = TARGET_H)) :
    (∀ (sys2 : WinSys) (mv2 : Bool),
      (swpCalls (resize_window sys2 mv2).2).length ≤ 2) ∧
    swpCalls (resize_window sys mv).2 =
      [c1,
       { x := c1.x, y := c1.y,
         w := (sys.step sys.g0 c1).ow + (TARGET_W - (sys.step sys.g0 c1).cw),
         h := (sys.step sys.g0 c1).oh + (TARGET_H - (sys.step sys.g0 c1).ch),
         flags := c1.flags }] ∧
    (¬((sys.step (sys.step sys.g0 c1) (retry_call sys mv)).cw = TARGET_W ∧
       (sys.step (sys.step sys.g0 c1) (retry_call sys mv)).ch = TARGET_H) →
      (resize_window sys mv).1 =
        attempted_msg (sys.step (sys.step sys.g0 c1) (retry_call sys mv)).cw
          (sys.step (sys.step sys.g0 c1) (retry_call sys mv)).ch) := by
  subst hc1
  refine ⟨?_, ?_, ?_⟩
  · intro sys2 mv2
    rw [swpCalls_resize]
    split <;> simp
  · rw [swpCalls_resize, if_neg hmiss]
    rfl
  · intro h2
    have hne : ¬(((sys.step (sys.step sys.g0 (first_call sys mv)) (retry_call sys mv)).cw,
                  (sys.step (sys.step sys.g0 (first_call sys mv)) (retry_call sys mv)).ch) =
                 (TARGET_W, TARGET_H)) := by
      simpa [Prod.mk.injEq] using h2
    rw [result_resize]
    simp [final_client, final_geom, hmiss, hne]

/-- Witness for C5 at the spec's snapping scenario: the app settles at
client 1916×1080 on both passes, two `SetWindowPos` calls are issued
(1936×1119 then 1940×1119), and the outcome is the `Attempted` result
carrying 1916×1080. -/
theorem C5_retry_once_witness :
    (resize_window snap_sys false).1 = attempted_msg 1916 1080 ∧
    swpCalls (resize_window snap_sys false).2 =
      [{ x := 0, y := 0, w := 1936, h := 1119, flags := 54 },
       { x := 0, y := 0, w := 1940, h := 1119, flags := 54 }] := by
  have h := C5_retry_once snap_sys false (first_call snap_sys false) rfl (by decide)
  constructor
  · exact (h.2.2 (by decide)).trans (by decide)
  · exact h.2.1.trans (by decide)

/-- C6: with repositioning requested, the first call's position is the
hosting monitor's top-left minus the left/top shadow margins and no
`SWP_NOMOVE` flag is set; without repositioning, `SWP_NOMOVE` is set
on every call and (for any OS honouring `SWP_NOMOVE`) the window's
position is left untouched. -/
theorem C6_position (sys : WinSys) (mv : Bool) (c1 : SWP)
    (hc1 : c1 = first_call sys mv)
    (hstep : ∀ g c, c.flags &&& SWP_NOMOVE ≠ 0 →
      (sys.step g c).ox = g.ox ∧ (sys.step g c).oy = g.oy) :
    (mv = true →
      c1.x = sys.monX - sys.shadowL ∧ c1.y = sys.monY - sys.shadowT ∧
      c1.flags &&& SWP_NOMOVE = 0) ∧
    (mv = false →
      c1.flags &&& SWP_NOMOVE ≠ 0 ∧
      (final_geom sys mv).ox = sys.g0.ox ∧ (final_geom sys mv).oy = sys.g0.oy) := by
  subst hc1
  constructor
  · intro h
    subst h
    exact ⟨rfl, rfl, by show BASE_FLAGS &&& SWP_NOMOVE = 0; decide⟩
  · intro h
    subst h
    have hflag : (first_call sys false).flags &&& SWP_NOMOVE ≠ 0 := by
      show (BASE_FLAGS ||| SWP_NOMOVE) &&& SWP_NOMOVE ≠ 0
      decide
    have hflag2 : (retry_call sys false).flags &&& SWP_NOMOVE ≠ 0 := hflag
    have h1 := hstep sys.g0 (first_call sys false) hflag
    refine ⟨hflag, ?_, ?_⟩ <;> rw [final_geom_eq] <;> split
    · exact h1.1
    · exact ((hstep _ _ hflag2).1).trans h1.1
    · exact h1.2
    · exact ((hstep _ _ hflag2).2).trans h1.2

/-- Witness for C6 at the spec's repositioning scenario: shadow
margins `(8,8,8,8)` on a monitor at `(1920, 0)` give a requested outer
position of `(1912, -8)`. -/
theorem C6_position_witness :
    (first_call origin_sys true).x = origin_sys.monX - origin_sys.shadowL ∧
    (first_call origin_sys true).x = 1912 ∧
    (first_call origin_sys true).y = -8 := by
  have hstep : ∀ g c, c.flags &&& SWP_NOMOVE ≠ 0 →
      (origin_sys.step g c).ox = g.ox ∧ (origin_sys.step g c).oy = g.oy := by
    intro g c hne
    constructor <;> simp [origin_sys, obedient_step, hne]
  have h := (C6_position origin_sys true (first_call origin_sys true) rfl hstep).1 rfl
  exact ⟨h.1, by decide, by decide⟩

/-- C8: for a non-maximized window whose client size already equals
the target and which honours size requests exactly, resize (without
repositioning) is idempotent: the computed outer size equals the
current outer size, a single `SetWindowPos` is issued, the outer rect
is unchanged, and the outcome is success. -/
theorem C8_idempotent (sys : WinSys)
    (hmax : sys.isMax = false)
    (hcw : sys.g0.cw = TARGET_W) (hch : sys.g0.ch = TARGET_H)
    (hstep : sys.step = obedient_step) :
    (first_call sys false).w = sys.g0.ow ∧
    (first_call sys false).h = sys.g0.oh ∧
    swpCalls (resize_window sys false).2 = [first_call sys false] ∧
    (final_geom sys false).ox = sys.g0.ox ∧ (final_geom sys false).oy = sys.g0.oy ∧
    (final_geom sys false).ow = sys.g0.ow ∧ (final_geom sys false).oh = sys.g0.oh ∧
    (resize_window sys false).1 = success_msg := by
  have hw : (first_call sys false).w = sys.g0.ow := by
    show sys.g0.ow + (TARGET_W - sys.g0.cw) = sys.g0.ow
    rw [hcw]
    omega
  have hh : (first_call sys false).h = sys.g0.oh := by
    show sys.g0.oh + (TARGET_H - sys.g0.ch) = sys.g0.oh
    rw [hch]
    omega
  have hflag : (first_call sys false).flags &&& SWP_NOMOVE ≠ 0 := by
    show (BASE_FLAGS ||| SWP_NOMOVE) &&& SWP_NOMOVE ≠ 0
    decide
  have hcond : (sys.step sys.g0 (first_call sys false)).cw = TARGET_W ∧
      (sys.step sys.g0 (first_call sys false)).ch = TARGET_H := by
    rw [hstep]
    constructor
    · show sys.g0.cw + ((first_call sys false).w - sys.g0.ow) = TARGET_W
      rw [hw, hcw]
      omega
    · show sys.g0.ch + ((first_call sys false).h - sys.g0.oh) = TARGET_H
      rw [hh, hch]
      omega
  have hfg : final_geom sys false = sys.step sys.g0 (first_call sys false) := by
    rw [final_geom_eq, if_pos hcond]
  have hfc : final_client sys false = (TARGET_W, TARGET_H) := by
    unfold final_client
    rw [hfg]
    simp [hcond.1, hcond.2]
  refine ⟨hw, hh, ?_, ?_, ?_, ?_, ?_, ?_⟩
  · rw [swpCalls_resize, if_pos hcond]
  · rw [hfg, hstep]
    show (if (first_call sys false).flags &&& SWP_NOMOVE ≠ 0
          then sys.g0.ox else (first_call sys false).x) = sys.g0.ox
    rw [if_pos hflag]
  · rw [hfg, hstep]
    show (if (first_call sys false).flags &&& SWP_NOMOVE ≠ 0
          then sys.g0.oy else (first_call sys false).y) = sys.g0.oy
    rw [if_pos hflag]
  · rw [hfg, hstep]
    exact hw
  · rw [hfg, hstep]
    exact hh
  · rw [result_resize, if_pos hfc]

/-- Witness for C8 at a concrete obedient window already at client
1920×1080: one call, unchanged outer rect, success. -/
theorem C8_idempotent_witness :
    idem_sys.isMax = false ∧ idem_sys.g0.cw = TARGET_W ∧
    idem_sys.g0.ch = TARGET_H ∧
    (resize_window idem_sys false).1 = success_msg ∧
    (final_geom idem_sys false).ow = idem_sys.g0.ow := by
  have h := C8_idempotent idem_sys rfl rfl rfl rfl
  exact ⟨rfl, rfl, rfl, h.2.2.2.2.2.2.2, h.2.2.2.2.2.1⟩

lemma natToString_no_tick (n : Nat) : '✓' ∉ (toString n).data :=
  natRepr_no_tick n

lemma do_resize_eq (move : Bool) (hs : List HandleRun) (hne : hs ≠ []) :
    do_resize move hs =
      some (hs.map (run_handle move), aggregate_msg (hs.map (run_handle move))) := by
  cases hs with
  | nil => exact absurd rfl hne
  | cons a t => rfl

lemma tick_in_aggregate_iff (results : List String) :
    '✓' ∈ (aggregate_msg results).data ↔ ∀ r ∈ results, '✓' ∈ r.data := by
  unfold aggregate_msg
  by_cases h1 : results.length = 1
  · rw [if_pos h1]
    obtain ⟨r, rfl⟩ := List.length_eq_one.mp h1
    simp
  · rw [if_neg h1]
    by_cases h2 : results.countP (fun r => decide ('✓' ∈ r.data)) = results.length
    · rw [if_pos h2]
      constructor
      · intro _ r hr
        simpa using List.countP_eq_length.mp h2 r hr
      · intro _
        simp only [data_append, List.mem_append]
        exact Or.inr (by decide)
    · rw [if_neg h2]
      constructor
      · intro hmem
        exfalso
        simp only [data_append, List.mem_append] at hmem
        rcases hmem with ((ha | hb) | hc) | hd
        · exact natToString_no_tick _ ha
        · exact absurd hb (by decide)
        · exact natToString_no_tick _ hc
        · exact absurd hd (by decide)
      · intro hall
        exact absurd (List.countP_eq_length.mpr
          (fun r hr => decide_eq_true (hall r hr))) h2

lemma tick_in_run_iff (move : Bool) (h : HandleRun)
    (herr : ∀ m : String, h = HandleRun.raises m → '✓' ∉ m.data) :
    '✓' ∈ (run_handle move h).data ↔ handle_succeeded move h := by
  cases h with
  | ok sys =>
    simpa [run_handle, handle_succeeded] using tick_iff_target sys move
  | raises m =>
    simp only [run_handle, handle_succeeded, iff_false]
    intro hmem
    rw [data_append] at hmem
    rcases List.mem_append.mp hmem with h1 | h1
    · exact absurd h1 (by decide)
    · exact herr m rfl h1

lemma tick_in_mapped_iff (move : Bool) (hs : List HandleRun)
    (herr : ∀ m : String, HandleRun.raises m ∈ hs → '✓' ∉ m.data) :
    '✓' ∈ (aggregate_msg (hs.map (run_handle move))).data ↔
      ∀ h ∈ hs, handle_succeeded move h := by
  rw [tick_in_aggregate_iff]
  constructor
  · intro hmsg h hh
    exact (tick_in_run_iff move h (fun m hm => herr m (hm ▸ hh))).mp
      (hmsg _ (List.mem_map_of_mem _ hh))
  · intro hall r hr
    obtain ⟨h, hh, rfl⟩ := List.mem_map.mp hr
    exact (tick_in_run_iff move h (fun m hm => herr m (hm ▸ hh))).mpr (hall h hh)

/-- C7: a batch is processed sequentially in the supplied order (the
result list is exactly the map of the per-handle run over the supplied
list); a platform exception during one handle becomes that handle's
`Error:` result, leaving the results of every other handle untouched;
and the aggregate status carries the success mark exactly when every
individual handle succeeded. -/
theorem C7_batch (move : Bool) (hs : List HandleRun) (hne : hs ≠ [])
    (herr : ∀ m : String, HandleRun.raises m ∈ hs → '✓' ∉ m.data) :
    do_resize move hs =
      some (hs.map (run_handle move), aggregate_msg (hs.map (run_handle move))) ∧
    (∀ m : String, run_handle move (HandleRun.raises m) = "Error: " ++ m) ∧
    (∀ (pre post : List HandleRun) (m : String),
      hs = pre ++ (HandleRun.raises m :: post) →
      hs.map (run_handle move) =
        pre.map (run_handle move) ++
          ("Error: " ++ m) :: post.map (run_handle move)) ∧
    ('✓' ∈ (aggregate_msg (hs.map (run_handle move))).data ↔
      ∀ h ∈ hs, handle_succeeded move h) := by
  refine ⟨do_resize_eq move hs hne, fun m => rfl, ?_, tick_in_mapped_iff move hs herr⟩
  intro pre post m hsplit
  subst hsplit
  simp [run_handle]

/-- Witness for C7: a two-handle batch whose second handle raises
`"boom"`; the batch still completes, and the aggregate does not carry
the success mark. -/
theorem C7_batch_witness :
    (do_resize false [HandleRun.ok idem_sys, HandleRun.raises "boom"]).isSome = true ∧
    ¬('✓' ∈ (aggregate_msg
        ([HandleRun.ok idem_sys, HandleRun.raises "boom"].map (run_handle false))).data) := by
  have herr : ∀ m : String,
      HandleRun.raises m ∈ [HandleRun.ok idem_sys, HandleRun.raises "boom"] →
        '✓' ∉ m.data := by
    intro m hm
    rcases List.mem_cons.mp hm with h | h
    · exact absurd h (by intro hh; cases hh)
    · rcases List.mem_cons.mp h with h2 | h2
      · cases h2
        decide
      · exact absurd h2 (by intro hh; cases hh)
  have h := C7_batch false [HandleRun.ok idem_sys, HandleRun.raises "boom"]
    (by intro hh; cases hh) herr
  constructor
  · rw [h.1]
    rfl
  · rw [h.2.2.2]
    intro hall
    exact hall (HandleRun.raises "boom") (by simp)

/-- C9: `_enum_windows` returns exactly the `(handle, title)` pairs of
the windows passing all filters of `_is_real_app_window` (visible,
non-empty trimmed title, not the utility's own process, class not in
the shell deny-list, not a tool window unless it opts back in with
`WS_EX_APPWINDOW`, and not cloaked, with a failed cloak query treated
as not-cloaked), sorted case-insensitively by title, and is the empty
list — not an error — when no window qualifies. -/
theorem C9_enum (ws : List WinInfo) (own_pid : Nat) :
    (∀ p : Nat × String, p ∈ enum_windows ws own_pid ↔
      ∃ w, w ∈ ws ∧ is_real_app_window w own_pid = true ∧ p = (w.hwnd, w.title)) ∧
    List.Sorted title_le (enum_windows ws own_pid) ∧
    ((∀ w ∈ ws, is_real_app_window w own_pid = false) →
      enum_windows ws own_pid = []) ∧
    (∀ w : WinInfo, is_real_app_window w own_pid = true ↔
      (w.visible = true ∧ title_blank w.title = false ∧ w.pid ≠ own_pid ∧
       w.className ∉ SHELL_CLASSES ∧
       (w.exstyle &&& WS_EX_TOOLWINDOW = 0 ∨ w.exstyle &&& WS_EX_APPWINDOW ≠ 0) ∧
       w.cloaked.getD 0 = 0)) := by
  refine ⟨?_, List.sorted_insertionSort title_le _, ?_, ?_⟩
  · intro p
    rw [enum_windows, List.mem_insertionSort]
    simp only [List.mem_map, List.mem_filter]
    constructor
    · rintro ⟨w, ⟨hw, hreal⟩, rfl⟩
      exact ⟨w, hw, hreal, rfl⟩
    · rintro ⟨w, hw, hreal, rfl⟩
      exact ⟨w, ⟨hw, hreal⟩, rfl⟩
  · intro hall
    have hf : ws.filter (fun w => is_real_app_window w own_pid) = [] := by
      rw [List.filter_eq_nil_iff]
      intro a ha
      simp [hall a ha]
    simp [enum_windows, hf]
  · intro w
    unfold is_real_app_window
    split_ifs with h1 h2 h3 h4 h5 h6 <;> simp_all <;> tauto

/-- Witness for C9: a desktop holding only the shell window yields the
empty list, and an ordinary window whose cloak query fails is still
eligible (fail-open). -/
theorem C9_enum_witness :
    enum_windows [shell_win] 7 = [] ∧
    is_real_app_window app_win 7 = true := by
  constructor
  · refine (C9_enum [shell_win] 7).2.2.1 ?_
    intro w hw
    have hw2 : w = shell_win := by simpa using hw
    subst hw2
    decide
  · refine ((C9_enum [] 7).2.2.2 app_win).mpr ?_
    exact ⟨rfl, by decide, by decide, by decide, Or.inl (by decide), rfl⟩

/-- C10: for batches of two or more handles, the aggregate status is
computed by counting the per-handle result strings containing `✓`;
each per-handle result is exactly one of the three shapes (success,
`Attempted` with achieved size, or `Error:`); and the aggregate
carries the all-succeeded form exactly when every per-handle final
client size equals the target, error messages never containing `✓`. -/
theorem C10_aggregate (move : Bool) (hs : List HandleRun) (hlen : 2 ≤ hs.length)
    (herr : ∀ m : String, HandleRun.raises m ∈ hs → '✓' ∉ m.data) :
    ∃ results msg,
      do_resize move hs = some (results, msg) ∧
      results = hs.map (run_handle move) ∧
      (∀ r ∈ results, r = success_msg ∨ (∃ a b : Int, r = attempted_msg a b) ∨
        ∃ m : String, r = "Error: " ++ m) ∧
      msg = (if results.countP (fun r => decide ('✓' ∈ r.data)) = results.length then
          toString (results.countP (fun r => decide ('✓' ∈ r.data))) ++ "/" ++
            toString results.length ++ " windows resized ✓"
        else
          toString (results.countP (fun r => decide ('✓' ∈ r.data))) ++ "/" ++
            toString results.length ++ " succeeded") ∧
      ('✓' ∈ msg.data ↔ ∀ h ∈ hs, handle_succeeded move h) := by
  have hne : hs ≠ [] := by
    intro hh
    subst hh
    simp at hlen
  refine ⟨hs.map (run_handle move), aggregate_msg (hs.map (run_handle move)),
    do_resize_eq move hs hne, rfl, ?_, ?_, tick_in_mapped_iff move hs herr⟩
  · intro r hr
    obtain ⟨h, _, rfl⟩ := List.mem_map.mp hr
    cases h with
    | ok sys =>
      have hr : run_handle move (HandleRun.ok sys) = (resize_window sys move).1 := rfl
      rw [hr, result_resize]
      split
      · exact Or.inl rfl
      · exact Or.inr (Or.inl ⟨_, _, rfl⟩)
    | raises m =>
      exact Or.inr (Or.inr ⟨m, rfl⟩)
  · unfold aggregate_msg
    rw [if_neg (by simpa using by omega : ¬(hs.map (run_handle move)).length = 1)]

/-- Witness for C10: a two-handle batch where the first window obeys
and the second snaps to 1916; not every final client size equals the
target, so the aggregate does not carry the all-succeeded form. -/
theorem C10_aggregate_witness :
    ¬('✓' ∈ (aggregate_msg
        ([HandleRun.ok idem_sys, HandleRun.ok snap_sys].map (run_handle false))).data) := by
  have herr : ∀ m : String,
      HandleRun.raises m ∈ [HandleRun.ok idem_sys, HandleRun.ok snap_sys] →
        '✓' ∉ m.data := by
    intro m hm
    rcases List.mem_cons.mp hm with h | h
    · exact absurd h (by intro hh; cases hh)
    · rcases List.mem_cons.mp h with h2 | h2
      · exact absurd h2 (by intro hh; cases hh)
      · exact absurd h2 (by intro hh; cases hh)
  obtain ⟨results, msg, h1, h2, h3, h4, h5⟩ :=
    C10_aggregate false [HandleRun.ok idem_sys, HandleRun.ok snap_sys]
      (by decide) herr
  have hcalc := do_resize_eq false [HandleRun.ok idem_sys, HandleRun.ok snap_sys]
    (by intro hh; cases hh)
  rw [hcalc] at h1
  have hpair := Option.some.inj h1
  have hmsg : aggregate_msg
      ([HandleRun.ok idem_sys, HandleRun.ok snap_sys].map (run_handle false)) = msg :=
    congrArg Prod.snd hpair
  rw [hmsg, h5]
  intro hall
  have hsnap := hall (HandleRun.ok snap_sys) (by simp)
  have : final_client snap_sys false = (TARGET_W, TARGET_H) := hsnap
  exact absurd this (by decide)

end Resizer
